import Mathlib

/-!
Shallow embedding of the Smart-Video-analyst-app core pipeline
(`services/geminiService.ts` plus the chat UI's source mapping) in Lean 4.

The embedded functions are pure translations of the TypeScript source:
remote responses are passed in explicitly as simulated data, JavaScript
falsiness of optional strings (`undefined` or `""`) is the `falsy`
predicate, and the unbounded `while` poll loop becomes a recursion over
the finite list of simulated poll outcomes, returning `none` when the
simulated responses run out while the file is still processing (the
source would keep polling forever in that situation).
-/

/-- JavaScript falsiness for an optional string: `undefined`/missing or
the empty string are falsy, every other string is truthy. -/
def falsy : Option String → Bool
  | none => true
  | some s => s == ""

/-- Lifecycle state of a remote file, per the remote interface contract
(`state ∈ processing | active | failed`); the source compares it against
the literals `"PROCESSING"` and `"FAILED"`. -/
inductive FileState where
  | processing
  | active
  | failed
deriving DecidableEq, Repr

/-- The file descriptor carried by upload / status-fetch responses:
`name` (identifier), `uri`, `mimeType` (each possibly absent, as the
source guards for) and the lifecycle `state`. -/
structure FileData where
  name : Option String
  uri : Option String
  mimeType : Option String
  state : FileState
deriving DecidableEq, Repr

/-- A raw remote response, possibly wrapped in a `.file` envelope: the
source unwraps it with `uploadResult.file ?? uploadResult`. -/
inductive RawResponse where
  | wrapped (file : FileData)
  | direct (fd : FileData)
deriving DecidableEq, Repr

/-- `r.file ?? r` from the source. -/
def RawResponse.unwrap : RawResponse → FileData
  | .wrapped f => f
  | .direct f => f

/-- One simulated outcome of `ai.files.get({ name })` during polling:
either a response, or a transient error (the source logs it with
`console.warn` and keeps the previously fetched file data). -/
inductive PollOutcome where
  | ok (r : RawResponse)
  | err
deriving DecidableEq, Repr

/-- The error kinds `uploadMediaFile` throws, in source order:
`"Upload failed: Invalid response from Gemini API."`,
`"File processing failed on Gemini servers."`,
`"File processing incomplete: Missing URI."`. -/
inductive UploadError where
  | invalidUploadResponse
  | processingFailed
  | missingUri
deriving DecidableEq, Repr

/-- The fixed backoff interval of the poll loop, in milliseconds:
`await new Promise(resolve => setTimeout(resolve, 2000))`. -/
def pollIntervalMs : Nat := 2000

/-- The poll loop `while (fileData.state === "PROCESSING") ...` of
`uploadMediaFile`.  Each iteration performs one wait of `pollIntervalMs`
and then one status fetch; a successful fetch replaces the file data
(after unwrapping), a transient fetch error keeps the previous file
data.  `waits` accumulates the number of waits (equally, the number of
status fetches attempted).  When the simulated outcomes are exhausted
while the state is still `processing`, the source would loop forever;
the embedding returns `none`. -/
def pollLoop : FileData → List PollOutcome → Nat → Option (FileData × Nat)
  | fd, [], waits =>
    if fd.state = FileState.processing then none else some (fd, waits)
  | fd, PollOutcome.ok r :: rest, waits =>
    if fd.state = FileState.processing then
      pollLoop r.unwrap rest (waits + 1)
    else some (fd, waits)
  | fd, PollOutcome.err :: rest, waits =>
    if fd.state = FileState.processing then
      pollLoop fd rest (waits + 1)
    else some (fd, waits)

/-- The success value of `uploadMediaFile`: the source returns
`{ uri: fileData.uri, mimeType: fileData.mimeType || file.type }`;
`handle` records the final file data that the returned fields were read
from. -/
structure IngestSuccess where
  handle : FileData
  uri : String
  mimeType : String
deriving DecidableEq, Repr

/-- `uploadMediaFile` of `geminiService.ts`, with the remote traffic
made explicit: `uploadResult` is the response of `ai.files.upload`,
`polls` the simulated outcomes of the successive `ai.files.get` calls,
and `fileType` is `file.type` of the uploaded `File`.  The result pairs
the thrown error or returned value with the number of waits performed;
`none` means the simulated poll outcomes ran out mid-processing. -/
def uploadMediaFile (uploadResult : RawResponse) (polls : List PollOutcome)
    (fileType : String) : Option (Except UploadError IngestSuccess × Nat) :=
  let fileData := uploadResult.unwrap
  if falsy fileData.name || falsy fileData.uri then
    some (Except.error UploadError.invalidUploadResponse, 0)
  else
    match pollLoop fileData polls 0 with
    | none => none
    | some (fd, waits) =>
      if fd.state = FileState.failed then
        some (Except.error UploadError.processingFailed, waits)
      else if falsy fd.uri then
        some (Except.error UploadError.missingUri, waits)
      else
        some (Except.ok
          ⟨fd, fd.uri.getD "",
            if falsy fd.mimeType then fileType else fd.mimeType.getD ""⟩, waits)

/-- The file data produced by a terminating poll loop is never in the
`processing` state: the loop only exits when the state has changed. -/
theorem pollLoop_not_processing (polls : List PollOutcome) :
    ∀ (fd : FileData) (waits : Nat) (fd2 : FileData) (w2 : Nat),
      pollLoop fd polls waits = some (fd2, w2) →
      fd2.state ≠ FileState.processing := by
  induction polls with
  | nil =>
    intro fd waits fd2 w2 h
    by_cases hs : fd.state = FileState.processing
    · simp [pollLoop, hs] at h
    · simp [pollLoop, hs] at h
      obtain ⟨h1, _⟩ := h
      simpa [← h1] using hs
  | cons p rest ih =>
    intro fd waits fd2 w2 h
    cases p with
    | ok r =>
      by_cases hs : fd.state = FileState.processing
      · simp [pollLoop, hs] at h
        exact ih _ _ _ _ h
      · simp [pollLoop, hs] at h
        obtain ⟨h1, _⟩ := h
        simpa [← h1] using hs
    | err =>
      by_cases hs : fd.state = FileState.processing
      · simp [pollLoop, hs] at h
        exact ih _ _ _ _ h
      · simp [pollLoop, hs] at h
        obtain ⟨h1, _⟩ := h
        simpa [← h1] using hs

/-- A JSON value, the domain of `JSON.parse` results in
`analyzeMeetingMedia` (numbers carried as rationals). -/
inductive Json where
  | null
  | bool (b : Bool)
  | num (q : Rat)
  | str (s : String)
  | arr (xs : List Json)
  | obj (fields : List (String × Json))

/-- First value bound to a key in a JSON object field list. -/
def lookupField : List (String × Json) → String → Option Json
  | [], _ => none
  | (k2, v) :: rest, k => if k2 = k then some v else lookupField rest k

/-- Field access on a JSON value (objects only). -/
def Json.getField : Json → String → Option Json
  | .obj fs, k => lookupField fs k
  | _, _ => none

/-- Whether a JSON object value carries the given field. -/
def hasField (j : Json) (k : String) : Bool :=
  (j.getField k).isSome

def isStringJson : Json → Bool
  | .str _ => true
  | _ => false

def isNumberJson : Json → Bool
  | .num _ => true
  | _ => false

/-- `Type.ARRAY` with the given item check. -/
def isArrayOf (check : Json → Bool) : Json → Bool
  | .arr xs => xs.all check
  | _ => false

/-- A property that the schema lists but does not require: if present it
must satisfy the check. -/
def optTyped (fs : List (String × Json)) (k : String) (check : Json → Bool) : Bool :=
  match lookupField fs k with
  | none => true
  | some v => check v

/-- A property in the schema's `required` list: it must be present and
satisfy the check. -/
def reqTyped (fs : List (String × Json)) (k : String) (check : Json → Bool) : Bool :=
  match lookupField fs k with
  | none => false
  | some v => check v

/-- Item schema of `transcript` (`speaker`, `timestamp`, `text`, each a
string; the nested object declares no `required` list). -/
def speakerSegmentConforms : Json → Bool
  | .obj fs =>
    optTyped fs "speaker" isStringJson &&
    optTyped fs "timestamp" isStringJson &&
    optTyped fs "text" isStringJson
  | _ => false

/-- The `status` enum of an action item: `['Pending', 'In Progress', 'Done']`. -/
def statusEnumOk : Json → Bool
  | .str s => s == "Pending" || s == "In Progress" || s == "Done"
  | _ => false

/-- Item schema of `actionItems` (`task`, `owner`, `status`, `dueDate`;
no nested `required` list). -/
def actionItemConforms : Json → Bool
  | .obj fs =>
    optTyped fs "task" isStringJson &&
    optTyped fs "owner" isStringJson &&
    optTyped fs "status" statusEnumOk &&
    optTyped fs "dueDate" isStringJson
  | _ => false

/-- Item schema of `sentimentData` (`time`, `score`, `mood`; no nested
`required` list). -/
def sentimentPointConforms : Json → Bool
  | .obj fs =>
    optTyped fs "time" isStringJson &&
    optTyped fs "score" isNumberJson &&
    optTyped fs "mood" isStringJson
  | _ => false

/-- Conformance to the `responseSchema` of `analyzeMeetingMedia`: a JSON
object whose `required` list is `["title", "summary", "transcript",
"actionItems", "sentimentData", "topics"]`, with `keyDecisions` an
optional array of strings. -/
def conformsToSchema : Json → Bool
  | .obj fs =>
    reqTyped fs "title" isStringJson &&
    reqTyped fs "summary" isStringJson &&
    optTyped fs "keyDecisions" (isArrayOf isStringJson) &&
    reqTyped fs "transcript" (isArrayOf speakerSegmentConforms) &&
    reqTyped fs "actionItems" (isArrayOf actionItemConforms) &&
    reqTyped fs "sentimentData" (isArrayOf sentimentPointConforms) &&
    reqTyped fs "topics" (isArrayOf isStringJson)
  | _ => false

/-- The errors thrown by the post-processing of `analyzeMeetingMedia`:
`"No response from AI"` (empty response) and
`"Failed to parse analysis results."` (the `MalformedResult` of the
specification). -/
inductive AnalyzeError where
  | noResponse
  | parseFailed
deriving DecidableEq, Repr

/-- The post-processing of `analyzeMeetingMedia` on the model response:
`text` is `response.text` and `parsed` is the outcome of
`JSON.parse(text)` (`none` models the parser throwing).  The source
checks `if (!text) throw`, then returns `JSON.parse(text) as
MeetingAnalysisResult` directly — the cast performs no runtime
validation against the schema. -/
def analyzePost (text : Option String) (parsed : Option Json) :
    Except AnalyzeError Json :=
  if falsy text then Except.error AnalyzeError.noResponse
  else
    match parsed with
    | some j => Except.ok j
    | none => Except.error AnalyzeError.parseFailed

/-- A `web` or `entry_point` link of a grounding chunk (`title` and
`uri` both possibly absent). -/
structure WebSource where
  title : Option String
  uri : Option String
deriving DecidableEq, Repr

/-- One entry of `groundingMetadata.groundingChunks`. -/
structure GroundingChunk where
  web : Option WebSource
  entry_point : Option WebSource
deriving DecidableEq, Repr

/-- A response of `ai.models.generateContent`: its optional `text` and
the optional chain `candidates?.[0]?.groundingMetadata?.groundingChunks`
collapsed into one optional list. -/
structure GenerateResponse where
  text : Option String
  groundingChunks : Option (List GroundingChunk)

/-- `researchTopic` of `geminiService.ts` on a model response: returns
`response.text || "No results found."` together with the raw grounding
chunks (`... || []`), unfiltered. -/
def researchTopic (response : GenerateResponse) : String × List GroundingChunk :=
  ((if falsy response.text then "No results found." else response.text.getD ""),
    response.groundingChunks.getD [])

/-- `s.web || s.entry_point` from the chat UI's `handleSend`. -/
def chunkLink (s : GroundingChunk) : Option WebSource :=
  match s.web with
  | some w => some w
  | none => s.entry_point

/-- The source mapping the chat UI applies to the chunks `researchTopic`
returned: `sources.length > 0 ? sources.map(s => s.web ||
s.entry_point).filter(Boolean) : undefined`. -/
def mapChunkSources (sources : List GroundingChunk) : Option (List WebSource) :=
  if 0 < sources.length then some (List.filterMap chunkLink sources) else none

/-- JavaScript `s.substring(0, n)`, modelled on the character list. -/
def jsSubstring (s : String) (n : Nat) : String :=
  String.mk (s.data.take n)

/-- Text of the system instruction template before the interpolated
`contextData.substring(0, 30000)`. -/
def ctxPre : String :=
  "You are a helpful meeting assistant. Answer questions based on the following meeting context data: \n  "

/-- Text of the system instruction template after the interpolated
context data. -/
def ctxPost : String := "... (truncated if too long). \n  Be concise and helpful."

/-- The unconditional truncation notice inside `ctxPost`. -/
def truncationNotice : String := "... (truncated if too long)"

/-- The `systemInstruction` template literal of `chatWithMeetingContext`. -/
def chatSystemInstruction (contextData : String) : String :=
  ctxPre ++ jsSubstring contextData 30000 ++ ctxPost

/-- The chat session request assembled by `chatWithMeetingContext`:
system instruction, history mapped by `h => ({role: h.role, parts:
[{text: h.content}]})`, and the new message. -/
structure ChatRequest where
  systemInstruction : String
  history : List (String × List String)
  message : String
deriving DecidableEq, Repr

/-- `history.map(h => ({role: h.role, parts: [{text: h.content}]}))`. -/
def mapHistory (history : List (String × String)) : List (String × List String) :=
  history.map (fun h => (h.1, [h.2]))

/-- `chatWithMeetingContext` without the client construction: builds the
request and returns `result.text || "I couldn't generate a response."`
for the model response. -/
def chatWithMeetingContext (history : List (String × String))
    (newMessage contextData : String) (modelResponse : Option String) :
    ChatRequest × String :=
  (⟨chatSystemInstruction contextData, mapHistory history, newMessage⟩,
    if falsy modelResponse then "I couldn't generate a response."
    else modelResponse.getD "")

/-- The configuration error of `getAiClient`: `"API Key not found"`. -/
inductive ConfigError where
  | apiKeyNotFound
deriving DecidableEq, Repr

/-- `getAiClient` of `geminiService.ts`: reads `process.env.API_KEY` and
throws when it is falsy; on success the constructed client is opaque
here. -/
def getAiClient (apiKey : Option String) : Except ConfigError Unit :=
  if falsy apiKey then Except.error ConfigError.apiKeyNotFound else Except.ok ()

/-- `analyzeMeetingMedia` end to end, with the client construction made
explicit: `getAiClient` runs first (at call time), then the upload/poll
pipeline, then the structured-analysis post-processing on the model
response. -/
def analyzeMeetingMediaOp (apiKey : Option String) (uploadResult : RawResponse)
    (polls : List PollOutcome) (fileType : String) (text : Option String)
    (parsed : Option Json) :
    Except ConfigError (Option (Except UploadError (Except AnalyzeError Json) × Nat)) :=
  match getAiClient apiKey with
  | Except.error e => Except.error e
  | Except.ok _ =>
    Except.ok (match uploadMediaFile uploadResult polls fileType with
      | none => none
      | some (Except.error e, w) => some (Except.error e, w)
      | some (Except.ok _, w) => some (Except.ok (analyzePost text parsed), w))

/-- `chatWithMeetingContext` with the call-time `getAiClient` check. -/
def chatWithMeetingContextOp (apiKey : Option String)
    (history : List (String × String)) (newMessage contextData : String)
    (modelResponse : Option String) : Except ConfigError (ChatRequest × String) :=
  match getAiClient apiKey with
  | Except.error e => Except.error e
  | Except.ok _ => Except.ok (chatWithMeetingContext history newMessage contextData modelResponse)

/-- `researchTopic` with the call-time `getAiClient` check. -/
def researchTopicOp (apiKey : Option String) (response : GenerateResponse) :
    Except ConfigError (String × List GroundingChunk) :=
  match getAiClient apiKey with
  | Except.error e => Except.error e
  | Except.ok _ => Except.ok (researchTopic response)

/-- `analyzeUploadedImage` with the call-time `getAiClient` check:
returns `response.text || "Could not analyze image."`. -/
def analyzeUploadedImageOp (apiKey : Option String) (modelResponse : Option String) :
    Except ConfigError String :=
  match getAiClient apiKey with
  | Except.error e => Except.error e
  | Except.ok _ =>
    Except.ok (if falsy modelResponse then "Could not analyze image."
      else modelResponse.getD "")

/-- A truthy optional string is `some u` with `u` non-empty. -/
theorem falsy_eq_false (o : Option String) (h : falsy o = false) :
    ∃ u : String, o = some u ∧ u ≠ "" := by
  cases o with
  | none => simp [falsy] at h
  | some u =>
    refine ⟨u, rfl, ?_⟩
    simpa [falsy] using h

/-- C2: whenever `uploadMediaFile` returns successfully, the final
remote file handle is in the `active` state and the returned location
URI is non-empty; every failure is one of the defined `UploadError`
kinds by the type of the result. -/
theorem ingest_success_active (uploadResult : RawResponse)
    (polls : List PollOutcome) (fileType : String) (s : IngestSuccess) (w : Nat)
    (h : uploadMediaFile uploadResult polls fileType = some (Except.ok s, w)) :
    s.handle.state = FileState.active ∧ s.uri ≠ "" := by
  unfold uploadMediaFile at h
  by_cases hv : (falsy uploadResult.unwrap.name || falsy uploadResult.unwrap.uri) = true
  · simp [hv] at h
  · simp [hv] at h
    cases hp : pollLoop uploadResult.unwrap polls 0 with
    | none => simp [hp] at h
    | some fw =>
      obtain ⟨fd, waits⟩ := fw
      have hnp : fd.state ≠ FileState.processing :=
        pollLoop_not_processing polls _ _ _ _ hp
      simp [hp] at h
      by_cases hf : fd.state = FileState.failed
      · simp [hf] at h
      · simp [hf] at h
        by_cases hu : falsy fd.uri = true
        · simp [hu] at h
        · simp [hu] at h
          obtain ⟨hs, _⟩ := h
          obtain ⟨u, huri, hne⟩ := falsy_eq_false fd.uri (by simpa using hu)
          constructor
          · rw [← hs]
            cases hst : fd.state with
            | processing => exact absurd hst hnp
            | active => rfl
            | failed => exact absurd hst hf
          · rw [← hs]
            simpa [huri] using hne

/-- C2 witness: an upload response that is already `active` yields a
successful ingest whose handle is active with a non-empty URI. -/
theorem ingest_success_active_witness :
    (IngestSuccess.mk ⟨some "files/x", some "https://u", some "video/mp4", FileState.active⟩
      "https://u" "video/mp4").handle.state = FileState.active ∧
    (IngestSuccess.mk ⟨some "files/x", some "https://u", some "video/mp4", FileState.active⟩
      "https://u" "video/mp4").uri ≠ "" :=
  ingest_success_active
    (RawResponse.direct ⟨some "files/x", some "https://u", some "video/mp4", FileState.active⟩)
    [] "video/mp4" _ 0 rfl

/-- C5: for the simulated status sequence `processing, processing,
active` (initial upload response processing, then two status fetches
reporting processing and active), `uploadMediaFile` performs exactly two
waits of the fixed `pollIntervalMs = 2000` millisecond backoff interval
and returns successfully on the third status check, with the final
handle being the third response. -/
theorem ingest_two_waits (f0 f1 f2 : FileData) (fileType : String)
    (h0 : f0.state = FileState.processing) (h1 : f1.state = FileState.processing)
    (h2 : f2.state = FileState.active)
    (hn : falsy f0.name = false) (hu : falsy f0.uri = false)
    (hu2 : falsy f2.uri = false) :
    pollIntervalMs = 2000 ∧
    ∃ s : IngestSuccess,
      uploadMediaFile (RawResponse.direct f0)
        [PollOutcome.ok (RawResponse.direct f1), PollOutcome.ok (RawResponse.direct f2)]
        fileType = some (Except.ok s, 2) ∧ s.handle = f2 := by
  refine ⟨rfl, ?_⟩
  have hloop : pollLoop f0
      [PollOutcome.ok (RawResponse.direct f1), PollOutcome.ok (RawResponse.direct f2)] 0 =
      some (f2, 2) := by
    simp [pollLoop, RawResponse.unwrap, h0, h1, h2]
  refine ⟨⟨f2, f2.uri.getD "",
    if falsy f2.mimeType then fileType else f2.mimeType.getD ""⟩, ?_, rfl⟩
  unfold uploadMediaFile
  simp [RawResponse.unwrap, hn, hu, hloop, h2, hu2]

/-- C5 witness: a concrete `processing, processing, active` run. -/
theorem ingest_two_waits_witness :
    pollIntervalMs = 2000 ∧
    ∃ s : IngestSuccess,
      uploadMediaFile
        (RawResponse.direct ⟨some "files/x", some "https://u0", some "video/mp4", FileState.processing⟩)
        [PollOutcome.ok (RawResponse.direct ⟨some "files/x", some "https://u1", some "video/mp4", FileState.processing⟩),
         PollOutcome.ok (RawResponse.direct ⟨some "files/x", some "https://u2", some "video/mp4", FileState.active⟩)]
        "video/mp4" = some (Except.ok s, 2) ∧
      s.handle = ⟨some "files/x", some "https://u2", some "video/mp4", FileState.active⟩ :=
  ingest_two_waits _ _ _ "video/mp4" rfl rfl rfl rfl rfl rfl

/-- C6: a transient status-fetch error never aborts polling — the
previously fetched file data is kept and the loop continues on the next
interval (first conjunct); and a run with one transient failure followed
by an `active` response still terminates successfully with an active
handle after its two waits (second conjunct). -/
theorem ingest_transient_poll_error :
    (∀ (fd : FileData) (polls : List PollOutcome) (w : Nat),
      fd.state = FileState.processing →
      pollLoop fd (PollOutcome.err :: polls) w = pollLoop fd polls (w + 1)) ∧
    (∀ (f0 f2 : FileData) (fileType : String),
      f0.state = FileState.processing → f2.state = FileState.active →
      falsy f0.name = false → falsy f0.uri = false → falsy f2.uri = false →
      ∃ s : IngestSuccess,
        uploadMediaFile (RawResponse.direct f0)
          [PollOutcome.err, PollOutcome.ok (RawResponse.direct f2)] fileType =
          some (Except.ok s, 2) ∧ s.handle = f2 ∧ s.handle.state = FileState.active) := by
  constructor
  · intro fd polls w hp
    simp [pollLoop, hp]
  · intro f0 f2 fileType h0 h2 hn hu hu2
    have hloop : pollLoop f0 [PollOutcome.err, PollOutcome.ok (RawResponse.direct f2)] 0 =
        some (f2, 2) := by
      simp [pollLoop, RawResponse.unwrap, h0, h2]
    refine ⟨⟨f2, f2.uri.getD "",
      if falsy f2.mimeType then fileType else f2.mimeType.getD ""⟩, ?_, rfl, h2⟩
    unfold uploadMediaFile
    simp [RawResponse.unwrap, hn, hu, hloop, h2, hu2]

/-- C6 witness: the error-skipping step at a concrete processing handle,
and a concrete transient-failure-then-active run returning an active
handle. -/
theorem ingest_transient_poll_error_witness :
    pollLoop ⟨some "files/x", some "https://u0", none, FileState.processing⟩
        [PollOutcome.err] 0 =
      pollLoop ⟨some "files/x", some "https://u0", none, FileState.processing⟩ [] 1 ∧
    ∃ s : IngestSuccess,
      uploadMediaFile
        (RawResponse.direct ⟨some "files/x", some "https://u0", some "video/mp4", FileState.processing⟩)
        [PollOutcome.err,
         PollOutcome.ok (RawResponse.direct ⟨some "files/x", some "https://u2", some "video/mp4", FileState.active⟩)]
        "video/mp4" = some (Except.ok s, 2) ∧
      s.handle = ⟨some "files/x", some "https://u2", some "video/mp4", FileState.active⟩ ∧
      s.handle.state = FileState.active :=
  ⟨ingest_transient_poll_error.1 _ [] 0 rfl,
    ingest_transient_poll_error.2 _ _ "video/mp4" rfl rfl rfl rfl rfl⟩

/-- C7: a structurally invalid upload response (falsy identifier or
falsy URI after unwrapping) makes `uploadMediaFile` fail with
`invalidUploadResponse` immediately: zero waits, and the result is the
same for every simulated poll sequence, so no status poll is consumed. -/
theorem ingest_invalid_upload (uploadResult : RawResponse)
    (polls : List PollOutcome) (fileType : String)
    (h : (falsy uploadResult.unwrap.name || falsy uploadResult.unwrap.uri) = true) :
    uploadMediaFile uploadResult polls fileType =
      some (Except.error UploadError.invalidUploadResponse, 0) := by
  unfold uploadMediaFile
  simp [h]

/-- C7 witness: an upload response missing its identifier fails
immediately with zero waits even though poll responses were available. -/
theorem ingest_invalid_upload_witness :
    uploadMediaFile (RawResponse.direct ⟨none, some "https://u", none, FileState.active⟩)
      [PollOutcome.err] "video/mp4" =
      some (Except.error UploadError.invalidUploadResponse, 0) :=
  ingest_invalid_upload _ [PollOutcome.err] "video/mp4" rfl

/-- A required schema property that checks out is present. -/
theorem reqTyped_isSome (fs : List (String × Json)) (k : String)
    (check : Json → Bool) (h : reqTyped fs k check = true) :
    (lookupField fs k).isSome = true := by
  unfold reqTyped at h
  cases hl : lookupField fs k with
  | none => rw [hl] at h; exact absurd h (by simp)
  | some v => simp

/-- C1 counterexample: on the response text `"\x7b\x7d"` — valid JSON
parsing to the empty object, which misses every required schema field —
`analyzeMeetingMedia`'s post-processing returns the partially populated
value unchanged instead of throwing `MalformedResult`. -/
theorem analyze_no_validation_counterexample :
    analyzePost (some "\x7b\x7d") (some (Json.obj [])) = Except.ok (Json.obj []) ∧
    conformsToSchema (Json.obj []) = false ∧
    analyzePost (some "\x7b\x7d") (some (Json.obj [])) ≠
      Except.error AnalyzeError.parseFailed := by
  refine ⟨rfl, rfl, ?_⟩
  simp [analyzePost, falsy]

/-- C1 amended: `analyze` throws `MalformedResult` exactly when the
response text is truthy but `JSON.parse` fails; any successfully parsed
JSON value — schema-conforming or not — is returned as-is, with no
runtime validation. -/
theorem analyze_malformed_iff_parse_error (text : Option String)
    (parsed : Option Json) :
    (analyzePost text parsed = Except.error AnalyzeError.parseFailed ↔
      falsy text = false ∧ parsed = none) ∧
    (∀ j : Json, parsed = some j → falsy text = false →
      analyzePost text parsed = Except.ok j) := by
  constructor
  · constructor
    · intro h
      by_cases ht : falsy text = true
      · simp [analyzePost, ht] at h
      · have ht' : falsy text = false := by simpa using ht
        cases parsed with
        | none => exact ⟨ht', rfl⟩
        | some j => simp [analyzePost, ht'] at h
    · rintro ⟨ht, hp⟩
      simp [analyzePost, ht, hp]
  · intro j hp ht
    simp [analyzePost, ht, hp]

/-- C1 amended witness: a non-empty unparsable text yields
`MalformedResult`; a parsable one is returned as-is. -/
theorem analyze_malformed_iff_parse_error_witness :
    analyzePost (some "not json") none = Except.error AnalyzeError.parseFailed ∧
    analyzePost (some "\x7b\x7d") (some (Json.obj [])) = Except.ok (Json.obj []) :=
  ⟨(analyze_malformed_iff_parse_error (some "not json") none).1.mpr ⟨rfl, rfl⟩,
   (analyze_malformed_iff_parse_error (some "\x7b\x7d") (some (Json.obj []))).2 _ rfl rfl⟩

/-- C4 counterexample: the empty JSON object is a successful `analyze`
result even though `title` (and every other required field) is absent,
and its missing `keyDecisions` stays missing — it is not defaulted to an
empty sequence. -/
theorem analyze_fields_counterexample :
    analyzePost (some "\x7b\x7d") (some (Json.obj [])) = Except.ok (Json.obj []) ∧
    hasField (Json.obj []) "title" = false ∧
    (Json.obj []).getField "keyDecisions" = none ∧
    (Json.obj []).getField "keyDecisions" ≠ some (Json.arr []) := by
  refine ⟨rfl, rfl, rfl, ?_⟩
  simp [Json.getField, lookupField]

/-- C4 amended: a successful `analyze` call returns the parsed payload
itself, unchanged — in particular a payload lacking `keyDecisions`
yields a result lacking `keyDecisions`, with no empty-sequence default —
and the six required fields are all present exactly when the payload
conforms to the response schema. -/
theorem analyze_success_payload (text : Option String) (parsed : Option Json)
    (j : Json) (h : analyzePost text parsed = Except.ok j) :
    parsed = some j ∧
    (conformsToSchema j = true →
      (hasField j "title" && hasField j "summary" && hasField j "transcript" &&
       hasField j "actionItems" && hasField j "sentimentData" &&
       hasField j "topics") = true) := by
  constructor
  · by_cases ht : falsy text = true
    · simp [analyzePost, ht] at h
    · have ht' : falsy text = false := by simpa using ht
      cases parsed with
      | none => simp [analyzePost, ht'] at h
      | some j2 =>
        simp [analyzePost, ht'] at h
        rw [h]
  · intro hc
    cases j with
    | null => simp [conformsToSchema] at hc
    | bool b => simp [conformsToSchema] at hc
    | num q => simp [conformsToSchema] at hc
    | str s => simp [conformsToSchema] at hc
    | arr xs => simp [conformsToSchema] at hc
    | obj fs =>
      simp [conformsToSchema, Bool.and_eq_true] at hc
      obtain ⟨⟨⟨⟨⟨⟨h1, h2⟩, _⟩, h3⟩, h4⟩, h5⟩, h6⟩ := hc
      simp [hasField, Json.getField, reqTyped_isSome _ _ _ h1,
        reqTyped_isSome _ _ _ h2, reqTyped_isSome _ _ _ h3,
        reqTyped_isSome _ _ _ h4, reqTyped_isSome _ _ _ h5,
        reqTyped_isSome _ _ _ h6]

/-- A fully populated, schema-conforming payload. -/
def jFull : Json :=
  Json.obj [("title", Json.str "T"), ("summary", Json.str "S"),
    ("transcript", Json.arr []), ("actionItems", Json.arr []),
    ("sentimentData", Json.arr []), ("topics", Json.arr [])]

/-- C4 amended witness: on the conforming payload `jFull`, a successful
analyze call exposes all six required fields. -/
theorem analyze_success_payload_witness :
    (hasField jFull "title" && hasField jFull "summary" && hasField jFull "transcript" &&
     hasField jFull "actionItems" && hasField jFull "sentimentData" &&
     hasField jFull "topics") = true :=
  (analyze_success_payload (some "x") (some jFull) jFull rfl).2 rfl

/-- C3 counterexample: on a response whose grounding chunks are
`[{web: {title: "A", uri: "http://a"}}, {}]`, `researchTopic` returns
both chunks raw — the empty entry is not filtered out and the returned
sequence has two entries, the second carrying no web or entry-point
link. -/
theorem research_unfiltered_counterexample :
    ((researchTopic ⟨some "text",
        some [⟨some ⟨some "A", some "http://a"⟩, none⟩, ⟨none, none⟩]⟩).2).length = 2 ∧
    ((researchTopic ⟨some "text",
        some [⟨some ⟨some "A", some "http://a"⟩, none⟩, ⟨none, none⟩]⟩).2).get? 1 =
      some ⟨none, none⟩ ∧
    chunkLink ⟨none, none⟩ = none :=
  ⟨rfl, rfl, rfl⟩

/-- C3 amended: `researchTopic` returns the grounding chunks raw and
unfiltered (or `[]` when absent); the web/entry-point projection with
empty entries dropped is applied afterwards by the chat UI's source
mapping, which on the example input yields exactly
`[{title: "A", uri: "http://a"}]`. -/
theorem research_raw_chunks :
    (∀ response : GenerateResponse,
      (researchTopic response).2 = response.groundingChunks.getD []) ∧
    mapChunkSources (researchTopic ⟨some "text",
        some [⟨some ⟨some "A", some "http://a"⟩, none⟩, ⟨none, none⟩]⟩).2 =
      some [⟨some "A", some "http://a"⟩] := by
  exact ⟨fun response => rfl, rfl⟩

/-- C8: the system instruction built by the context-mode chat embeds
exactly `contextData.substring(0, 30000)` between the two fixed template
pieces: the embedded text is the first 30000 characters, it equals the
whole of `contextData` whenever that has at most 30000 characters, and
it has exactly 30000 characters whenever `contextData` is longer. -/
theorem chat_context_truncation (contextData : String) :
    chatSystemInstruction contextData =
      ctxPre ++ jsSubstring contextData 30000 ++ ctxPost ∧
    (jsSubstring contextData 30000).data = contextData.data.take 30000 ∧
    (contextData.length ≤ 30000 → jsSubstring contextData 30000 = contextData) ∧
    (30000 < contextData.length → (jsSubstring contextData 30000).length = 30000) := by
  refine ⟨rfl, rfl, ?_, ?_⟩
  · intro h
    have hlen : contextData.data.length ≤ 30000 := h
    unfold jsSubstring
    rw [List.take_of_length_le hlen]
  · intro h
    have hge : 30000 ≤ contextData.data.length := Nat.le_of_lt h
    unfold jsSubstring
    show (contextData.data.take 30000).length = 30000
    rw [List.length_take]
    exact Nat.min_eq_left hge

/-- C8 witness: a short context string is embedded whole. -/
theorem chat_context_truncation_witness :
    chatSystemInstruction "ctx" = ctxPre ++ jsSubstring "ctx" 30000 ++ ctxPost ∧
    jsSubstring "ctx" 30000 = "ctx" :=
  ⟨(chat_context_truncation "ctx").1,
    (chat_context_truncation "ctx").2.2.1 (by decide)⟩

/-- C10: the literal truncation notice `"... (truncated if too long)"`
occurs in the system instruction for every `contextData`, short inputs
included — the notice is part of the fixed template suffix, appended
unconditionally. -/
theorem chat_truncation_notice_unconditional (contextData : String) :
    ∃ pre post : String,
      chatSystemInstruction contextData = pre ++ (truncationNotice ++ post) := by
  refine ⟨ctxPre ++ jsSubstring contextData 30000, ". \n  Be concise and helpful.", ?_⟩
  have hsplit : ctxPost = truncationNotice ++ ". \n  Be concise and helpful." := by decide
  unfold chatSystemInstruction
  rw [hsplit, String.append_assoc]

/-- C9: with the process-wide API key configuration absent (or empty),
every public operation — analyze (including its ingest step), context
chat, research, and image analysis — fails with the `"API Key not
found"` configuration error; the result is independent of all simulated
remote traffic, so the error is raised before any remote request, on
every invocation. -/
theorem api_key_required (apiKey : Option String) (h : falsy apiKey = true)
    (uploadResult : RawResponse) (polls : List PollOutcome) (fileType : String)
    (text : Option String) (parsed : Option Json)
    (history : List (String × String)) (newMessage contextData : String)
    (chatResponse : Option String) (response : GenerateResponse)
    (imageResponse : Option String) :
    analyzeMeetingMediaOp apiKey uploadResult polls fileType text parsed =
      Except.error ConfigError.apiKeyNotFound ∧
    chatWithMeetingContextOp apiKey history newMessage contextData chatResponse =
      Except.error ConfigError.apiKeyNotFound ∧
    researchTopicOp apiKey response = Except.error ConfigError.apiKeyNotFound ∧
    analyzeUploadedImageOp apiKey imageResponse =
      Except.error ConfigError.apiKeyNotFound := by
  simp [analyzeMeetingMediaOp, chatWithMeetingContextOp, researchTopicOp,
    analyzeUploadedImageOp, getAiClient, h]

/-- C9 witness: the four operations all fail with the configuration
error when the API key is missing. -/
theorem api_key_required_witness :
    analyzeMeetingMediaOp none
        (RawResponse.direct ⟨some "files/x", some "https://u", none, FileState.active⟩)
        [] "video/mp4" (some "t") none =
      Except.error ConfigError.apiKeyNotFound ∧
    chatWithMeetingContextOp none [] "hi" "ctx" (some "r") =
      Except.error ConfigError.apiKeyNotFound ∧
    researchTopicOp none ⟨some "t", none⟩ = Except.error ConfigError.apiKeyNotFound ∧
    analyzeUploadedImageOp none (some "t") = Except.error ConfigError.apiKeyNotFound :=
  api_key_required none rfl _ [] "video/mp4" (some "t") none [] "hi" "ctx"
    (some "r") ⟨some "t", none⟩ (some "t")
